import Mathlib

/-!
Verification development for the TDungeon engine.

The source program is a type-level TypeScript dungeon game (src/TDungeon.ts).
Types in the source play the role of values at runtime, so the shallow
embedding below turns each type-level operator into an executable Lean
function over explicit data:

* string literal types become `String`;
* the `GameMap` tuple of five `MapLevel`s becomes a `List MapLevel`, and the
  source's forward references `GameMap[i]` become the index `i` resolved
  through `levelAt`;
* object action tables (whose declaration order `keyof`/`Union.ToTuple`
  observes) become ordered association lists `(id, (requiredItem?, effect))`;
* `Obj.Update` on the player state becomes a record update;
* the `never` result of the terminal effect `spidersRoom.putMask` becomes the
  dedicated constructor `EffectState.terminal`, and the `null` player state
  produced on death becomes `FinalState.null`;
* the static legality constraint `TAction extends ListActions<TGameState>` of
  `Act` becomes an explicit membership test that fails with
  `ActError.illegalAction`.
-/

namespace TDungeon

/-- Map elements: the four structural variants of the source's `MapElement`
(`Wall`, `Corridor`, `Room`, `Item`).  A corridor stores the index of its
target level (the source's `GameMap[i]` forward reference).  Rooms and items
carry their action tables as ordered lists of
`(action id, (requiredItem?, effect key))` entries, mirroring the declaration
order of the source objects. -/
inductive MapElement where
  | wall : MapElement
  | corridor (description : String) (target : Nat) : MapElement
  | room (description insideDescription : String)
      (actions : List (String × Option String × String)) : MapElement
  | item (description : String)
      (actions : List (String × Option String × String)) : MapElement
  deriving DecidableEq

/-- Description field of a map element (`Wall` declares the fixed description
"It's a wall" in the source). -/
def MapElement.description : MapElement → String
  | .wall => "It's a wall"
  | .corridor d _ => d
  | .room d _ _ => d
  | .item d _ => d

/-- Action table of a map element; `Wall` and `Corridor` declare the empty
table `actions: {}` in the source. -/
def MapElement.actions : MapElement → List (String × Option String × String)
  | .wall => []
  | .corridor _ _ => []
  | .room _ _ acts => acts
  | .item _ acts => acts

/-- A map level holds exactly three elements in the fixed order
Left, Forward, Right (the source's `_MapLevel` triple). -/
structure MapLevel where
  left : MapElement
  forward : MapElement
  right : MapElement
  deriving DecidableEq

/-- The direction action table shared by every `MapLevel` in the source:
`\x7b left: [undefined, 0]; forward: [undefined, 1]; right: [undefined, 2] \x7d`. -/
def levelActions : List (String × Option String × Nat) :=
  [("left", (none, 0)), ("forward", (none, 1)), ("right", (none, 2))]

/-- Indexing of a level's three slots, as `Get<TCurrentPosition, ["level", TDirection]>`
does in the source. -/
def slotAt (lv : MapLevel) : Nat → Option MapElement
  | 0 => some lv.left
  | 1 => some lv.forward
  | 2 => some lv.right
  | _ => none

/-- Player position: either at a map level (stored by index into `GameMap`) or
inside a map element, the source's `MapLevel | MapElement` union. -/
inductive Position where
  | level (idx : Nat) : Position
  | element (e : MapElement) : Position
  deriving DecidableEq

/-- The source's `PlayerState` record. -/
structure PlayerState where
  health : Int
  position : Position
  inventory : List String
  deriving DecidableEq

/-- The source's `GameState = [string, PlayerState]`. -/
abbrev GameState := String × PlayerState

/-- Result of one entry of the effects registry: either an updated player
state (`Obj.Update<...>` in the source) or the source's `never`, the terminal
win sentinel of `spidersRoom.putMask`. -/
inductive EffectState where
  | upd (p : PlayerState) : EffectState
  | terminal : EffectState
  deriving DecidableEq

/-- Player-state slot of the value `Act` returns: a live player state, the
`null` produced by the death check, or the source's `never` carried through
`CheckActionResult` unchanged after the terminal win effect. -/
inductive FinalState where
  | alive (p : PlayerState) : FinalState
  | null : FinalState
  | terminal : FinalState
  deriving DecidableEq

/-- Error raised when `Act` is called with an action id that the static
constraint `TAction extends ListActions<TGameState>` of the source rules out. -/
inductive ActError where
  | illegalAction : ActError
  deriving DecidableEq

/-- The dungeon map, the source's `GameMap` tuple of five levels. -/
def GameMap : List MapLevel :=
  [ { left := .room "a half opened door"
        "Opening the door you find youserlf in a room with a small desk. The desk has one drawer"
        [("Open the drawer", (none, "keyRoom.key")),
         ("Exit the room", (none, "keyRoom.exit"))],
      forward := .corridor "a dark and humid corridor." 1,
      right := .wall },
    { left := .wall,
      forward := .room "a door - and you can feel air current comming through it"
        "You open the door to a room full of venomous spiders. There's another door in the right wall"
        [("Reach for the other door", (none, "spidersRoomSouthDoor.runForDoor")),
         ("Exit from where you came", (none, "spidersRoomSouthDoor.exit")),
         ("Put on the mask", (some "Spider Mask", "spidersRoom.putMask"))],
      right := .corridor "a tunnel that biffurcates" 2 },
    { left := .corridor "that the tunnel you're in continues" 3,
      forward := .wall,
      right := .item "Locked Chest"
        [("Use the Small key", (some "Small Key", "chest.unlock")),
         ("Force it open", (none, "chest.force")),
         ("Leave it", (none, "chest.leave"))] },
    { left := .corridor "that keep following the tunel seems to be your only option" 4,
      forward := .wall,
      right := .wall },
    { left := .wall,
      forward := .room "a door - and you can feel air current comming from below it"
        "You open the door to a completely dark room. As the door slams shut behind you notice another door on the left wall and... lot's of venomous spiders"
        [("Exit through the other door", (none, "spidersRoomEastDoor.runForDoor")),
         ("Put on the mask", (some "Spider Mask", "spidersRoom.putMask"))],
      right := .wall } ]

/-- Resolves the source's forward reference `GameMap[i]`. -/
def levelAt (i : Nat) : MapLevel :=
  GameMap.getD i { left := .wall, forward := .wall, right := .wall }

/-- The source's `List.Join<TTuple, TDelimeter>`: joins every element of the
list (empty strings included) with the delimiter. -/
def Join : List String → String → String
  | [], _ => ""
  | [h], _ => h
  | h :: t, sep => h ++ sep ++ Join t sep

/-- The three fixed direction phrases, the source's `Directions` tuple. -/
def Directions : List String :=
  ["On your left you notice", "In front of you there's", "On your right you see"]

/-- Contribution of one slot to a level description: a `Wall` contributes the
empty string, any other element contributes
"<direction phrase> <description>.". -/
def describeSlot (direction : String) (e : MapElement) : String :=
  match e with
  | .wall => ""
  | e => direction ++ " " ++ e.description ++ "."

/-- The source's `DescribeMapLevel`: maps the three slots to their
contributions (empty for walls) and joins all three with a single space. -/
def DescribeMapLevel (lv : MapLevel) : String :=
  Join
    [describeSlot (Directions.getD 0 "") lv.left,
     describeSlot (Directions.getD 1 "") lv.forward,
     describeSlot (Directions.getD 2 "") lv.right] " "

/-- Gate of one action-table entry, the source's
`[undefined | TGameState[1]["inventory"][number], any]` test in
`Obj.KeyWithValue`: the entry passes when its required item is absent or is a
member of the inventory. -/
def availEntry {α : Type} (inv : List String) (e : String × Option String × α) : Bool :=
  match e.2.1 with
  | none => true
  | some it => decide (it ∈ inv)

/-- The source's `ListActions`: the ids of the entries of the action table
whose gate passes, in the table's declaration order. -/
def ListActions {α : Type} (table : List (String × Option String × α))
    (inv : List String) : List String :=
  (table.filter (availEntry inv)).map (fun e => e.1)

/-- Action ids currently available to the player, the source's
`ListActions<TGameState>` applied to the current position's action table. -/
def availableActions (p : PlayerState) : List String :=
  match p.position with
  | .level _ => ListActions levelActions p.inventory
  | .element e => ListActions e.actions p.inventory

/-- The source's `Move`: resolves a direction action against the current
level.  A wall answers "You can't go this way. " plus the current level's
description and leaves the player state untouched; a corridor moves to its
target level and describes it; a room or item becomes the new position and
its inside text plus the gated action list is narrated. -/
def Move (s : GameState) (a : String) (cur : MapLevel) : Option (String × PlayerState) :=
  match levelActions.lookup a with
  | none => none
  | some (_, dir) =>
    match slotAt cur dir with
    | none => none
    | some .wall =>
        some ("You can't go this way. " ++ DescribeMapLevel cur, s.2)
    | some (.corridor _ target) =>
        some (DescribeMapLevel (levelAt target), { s.2 with position := .level target })
    | some (.room d inside acts) =>
        some (inside ++ ". Your available actions are: " ++ Join (ListActions acts s.2.inventory) ", ",
              { s.2 with position := .element (.room d inside acts) })
    | some (.item d acts) =>
        some ("You reach for the " ++ d ++ ". Your available actions are: " ++ Join (ListActions acts s.2.inventory) ", ",
              { s.2 with position := .element (.item d acts) })

/-- The effects registry, the source's `Actions<TPlayerState>` mapped type:
each effect key yields a narration and either an `Obj.Update` of the player
state or the terminal (`never`) sentinel of `spidersRoom.putMask`. -/
def Actions (p : PlayerState) : String → Option (String × EffectState)
  | "keyRoom.key" =>
      some ("You find a small key! You put in your pocket and leave the room, leaving the door open as you found.",
            .upd { p with position := .level 0, inventory := "Small Key" :: p.inventory })
  | "keyRoom.exit" =>
      some ("You leave the room.", .upd { p with position := .level 0 })
  | "spidersRoomSouthDoor.runForDoor" =>
      some ("You make a run for the other door, only to find it locked. You get back from where you came and, as you leave the room, you are bitten and loose one hit point.",
            .upd { p with health := p.health - 1, position := .level 1 })
  | "spidersRoomSouthDoor.exit" =>
      some ("You just go back from where you came and avoid getting hurt.",
            .upd { p with position := .level 1 })
  | "spidersRoomEastDoor.runForDoor" =>
      some ("You make a run for the other door, and as you cross it you are bitten and loose one hit point.",
            .upd { p with position := .level 1, health := p.health - 1 })
  | "spidersRoom.putMask" =>
      some ("As soon as you put on the mask, the spiders gather around you, and as you move, they spread out making way for you. You focus your efforts in investigating the room and find a hidden passage that leads you... to the lost treasure of Anders Hejlsberg! You did it adventurer, now go check the code.",
            .terminal)
  | "chest.unlock" =>
      some ("You grab the small key from your pocket and it fits in the chest lock. Click. Inside the chest you find a hairy mask with multiple eyes. You put it in your bag and close the chest.",
            .upd { p with position := .level 2, inventory := "Spider Mask" :: p.inventory })
  | "chest.force" =>
      some ("As you rattle the chest's lock, a spider comes out of nowhere and bites you. ",
            .upd { p with position := .level 2, health := p.health - 1 })
  | "chest.leave" =>
      some ("", .upd { p with position := .level 2 })
  | _ => none

/-- The source's `CheckActionResult`: the terminal (`never`) state passes
through unchanged; a player state with health exactly 0 becomes the death
narration plus `null`; a player state whose position is a map level gets that
level's description appended after a space; anything else passes through. -/
def CheckActionResult : String × EffectState → String × FinalState
  | (n, .terminal) => (n, .terminal)
  | (n, .upd p) =>
    if p.health = 0 then (n ++ " You are Dead - Game Over!", .null)
    else
      match p.position with
      | .level i => (n ++ " " ++ DescribeMapLevel (levelAt i), .alive p)
      | .element _ => (n, .alive p)

/-- Interaction engine: the branch of the source's `Act` taken when the
position is an `InteractiveMapElement`, with the static legality constraint
made an explicit membership test.  Looks up the entry's effect key in the
registry and post-processes through `CheckActionResult`. -/
def Interact (p : PlayerState) (a : String)
    (acts : List (String × Option String × String)) : Except ActError (String × FinalState) :=
  if a ∈ ListActions acts p.inventory then
    match acts.lookup a with
    | some (_, key) =>
      match Actions p key with
      | some res => .ok (CheckActionResult res)
      | none => .error .illegalAction
    | none => .error .illegalAction
  else .error .illegalAction

/-- The source's `Act`, the sole entry point: navigation through `Move` when
the position is a map level (the source returns `Move`'s result directly,
without `CheckActionResult`), interaction through the effects registry and
`CheckActionResult` when the position is a room or item.  Action ids outside
`ListActions` of the current position — statically impossible in the source —
fail with `ActError.illegalAction`. -/
def Act (s : GameState) (a : String) : Except ActError (String × FinalState) :=
  match s.2.position with
  | .level i =>
    if a ∈ ListActions levelActions s.2.inventory then
      match Move s a (levelAt i) with
      | some (n, p) => .ok (n, .alive p)
      | none => .error .illegalAction
    else .error .illegalAction
  | .element e =>
    match e with
    | .room _ _ acts => Interact s.2 a acts
    | .item _ acts => Interact s.2 a acts
    | _ => .error .illegalAction

/-- The source's `NewState`: health 2, empty inventory, at the first level. -/
def NewState : PlayerState :=
  { health := 2, position := .level 0, inventory := [] }

/-- The source's `NewGame` value. -/
def NewGame : GameState :=
  ("Welcome Adventurer. You locked yourself in this dungeon and you can't go back. "
     ++ DescribeMapLevel (levelAt 0) ++ " Use the type Act<TGameState, TAction>.",
   NewState)

/-! Helper lemmas shared by the claim theorems. -/

/-- The direction table gates nothing, so every inventory sees the same three
direction actions. -/
theorem listActions_levelActions (inv : List String) :
    ListActions levelActions inv = ["left", "forward", "right"] := rfl

/-- A successful lookup in the direction table forces one of the three
direction keys and its slot index. -/
theorem lookup_levelActions_cases (a : String) (req : Option String) (dir : Nat)
    (h : levelActions.lookup a = some (req, dir)) :
    (a = "left" ∧ dir = 0) ∨ (a = "forward" ∧ dir = 1) ∨ (a = "right" ∧ dir = 2) := by
  simp only [levelActions, List.lookup] at h
  split at h
  · rename_i heq
    simp_all [beq_iff_eq]
  · split at h
    · rename_i heq
      simp_all [beq_iff_eq]
    · split at h
      · rename_i heq
        simp_all [beq_iff_eq]
      · exact absurd h (by simp)

/-- Reduction of `Act` on a level position once the action is known legal. -/
theorem act_level_reduce (n0 : String) (hp : Int) (inv : List String) (i : Nat) (a : String)
    (hmem : a ∈ ListActions levelActions inv) :
    Act (n0, ⟨hp, .level i, inv⟩) a =
      match Move (n0, ⟨hp, .level i, inv⟩) a (levelAt i) with
      | some (n, p) => .ok (n, .alive p)
      | none => .error .illegalAction := by
  simp only [Act]
  rw [if_pos hmem]

/-- Reduction of `Move` once the direction lookup is known. -/
theorem move_lookup (s : GameState) (a : String) (cur : MapLevel)
    (req : Option String) (dir : Nat)
    (hlook : levelActions.lookup a = some (req, dir)) :
    Move s a cur =
      match slotAt cur dir with
      | none => none
      | some .wall =>
          some ("You can't go this way. " ++ DescribeMapLevel cur, s.2)
      | some (.corridor _ target) =>
          some (DescribeMapLevel (levelAt target), { s.2 with position := .level target })
      | some (.room d inside acts) =>
          some (inside ++ ". Your available actions are: " ++ Join (ListActions acts s.2.inventory) ", ",
                { s.2 with position := .element (.room d inside acts) })
      | some (.item d acts) =>
          some ("You reach for the " ++ d ++ ". Your available actions are: " ++ Join (ListActions acts s.2.inventory) ", ",
                { s.2 with position := .element (.item d acts) }) := by
  simp only [Move, hlook]

/-- Reduction of `Act` on an interactive element once the legality test, the
table lookup and the registry lookup are known. -/
theorem interact_result (n0 : String) (hp : Int) (inv : List String) (e : MapElement)
    (a key n : String) (req : Option String) (r : EffectState)
    (hleg : a ∈ ListActions e.actions inv)
    (hlook : e.actions.lookup a = some (req, key))
    (heff : Actions ⟨hp, .element e, inv⟩ key = some (n, r)) :
    Act (n0, ⟨hp, .element e, inv⟩) a = .ok (CheckActionResult (n, r)) := by
  cases e with
  | wall => simp [MapElement.actions, ListActions] at hleg
  | corridor d t => simp [MapElement.actions, ListActions] at hleg
  | room d ins acts =>
    simp only [MapElement.actions] at hleg hlook
    show Interact ⟨hp, .element (.room d ins acts), inv⟩ a acts = .ok (CheckActionResult (n, r))
    simp only [Interact]
    rw [if_pos hleg, hlook]
    simp only [heff]
  | item d acts =>
    simp only [MapElement.actions] at hleg hlook
    show Interact ⟨hp, .element (.item d acts), inv⟩ a acts = .ok (CheckActionResult (n, r))
    simp only [Interact]
    rw [if_pos hleg, hlook]
    simp only [heff]

/-- Every non-terminal entry of the effects registry moves the player to
level 0, 1 or 2 of the map. -/
theorem actions_upd_level (p : PlayerState) (key n : String) (q : PlayerState)
    (h : Actions p key = some (n, .upd q)) :
    q.position = .level 0 ∨ q.position = .level 1 ∨ q.position = .level 2 := by
  simp only [Actions] at h
  repeat' split at h
  all_goals simp at h
  all_goals obtain ⟨-, rfl⟩ := h
  all_goals simp

/-! Claim theorems. -/

/-- C2: an action id is listed by `ListActions` iff some entry of the table
carries that id and its required item is absent or held, the listing follows
the table's declaration order (it is a sublist of the table's keys), and
concretely the key room offers "Open the drawer" and "Exit the room" to an
empty inventory while the spider room omits the mask action gated on the
absent "Spider Mask". -/
theorem listActions_gating_order :
    (∀ (α : Type) (table : List (String × Option String × α)) (inv : List String) (a : String),
        a ∈ ListActions table inv ↔
          ∃ req eff, (a, (req, eff)) ∈ table ∧
            (req = none ∨ ∃ it, it ∈ inv ∧ req = some it)) ∧
    (∀ (α : Type) (table : List (String × Option String × α)) (inv : List String),
        (ListActions table inv).Sublist (table.map (fun e => e.1))) ∧
    ListActions ((levelAt 0).left).actions [] = ["Open the drawer", "Exit the room"] ∧
    ListActions ((levelAt 1).forward).actions [] =
      ["Reach for the other door", "Exit from where you came"] := by
  refine ⟨?_, ?_, rfl, rfl⟩
  · intro α table inv a
    constructor
    · intro hmem
      simp only [ListActions, List.mem_map, List.mem_filter] at hmem
      obtain ⟨⟨x, req, eff⟩, ⟨hm, hav⟩, hx⟩ := hmem
      subst hx
      refine ⟨req, eff, hm, ?_⟩
      cases req with
      | none => exact Or.inl rfl
      | some it =>
        right
        refine ⟨it, ?_, rfl⟩
        simpa [availEntry] using hav
    · rintro ⟨req, eff, hm, hav⟩
      simp only [ListActions, List.mem_map, List.mem_filter]
      refine ⟨⟨a, req, eff⟩, ⟨hm, ?_⟩, rfl⟩
      rcases hav with rfl | ⟨it, hit, rfl⟩
      · simp [availEntry]
      · simp [availEntry, hit]
  · intro α table inv
    exact (List.filter_sublist table).map _

/-- C6: navigating into a wall answers "You can't go this way. " followed by
the current level's description and returns the input player state itself:
position, health and inventory are unchanged. -/
theorem wall_move_unchanged (n0 : String) (hp : Int) (inv : List String)
    (i dir : Nat) (a : String) (req : Option String)
    (hlook : levelActions.lookup a = some (req, dir))
    (hslot : slotAt (levelAt i) dir = some .wall) :
    Act (n0, ⟨hp, .level i, inv⟩) a =
      .ok ("You can't go this way. " ++ DescribeMapLevel (levelAt i),
           .alive ⟨hp, .level i, inv⟩) := by
  rcases lookup_levelActions_cases a req dir hlook with ⟨ha, hd⟩ | ⟨ha, hd⟩ | ⟨ha, hd⟩ <;>
    subst ha <;>
    rw [act_level_reduce _ _ _ _ _ (by rw [listActions_levelActions]; simp),
        move_lookup _ _ _ _ _ hlook, hslot]

set_option maxRecDepth 8000 in
/-- C6 witness: from level 0 with full health and empty inventory, moving
"right" hits the wall and leaves the state unchanged. -/
theorem wall_move_unchanged_witness :
    levelActions.lookup "right" = some (none, 2) ∧
    slotAt (levelAt 0) 2 = some .wall ∧
    Act ("", ⟨2, .level 0, []⟩) "right" =
      .ok ("You can't go this way. " ++ DescribeMapLevel (levelAt 0),
           .alive ⟨2, .level 0, []⟩) :=
  ⟨rfl, rfl, wall_move_unchanged "" 2 [] 0 2 "right" none rfl rfl⟩

/-- C8: any action id outside the current position's available action list —
a non-direction key at a level, an unknown key inside a room or item, or a
key whose required item is not held — makes `Act` fail with the explicit
`illegalAction` error rather than act as a no-op. -/
theorem illegal_action_error (s : GameState) (a : String)
    (h : a ∉ availableActions s.2) :
    Act s a = .error .illegalAction := by
  obtain ⟨n0, p⟩ := s
  obtain ⟨hp, pos, inv⟩ := p
  cases pos with
  | level i =>
    simp only [availableActions] at h
    simp only [Act]
    rw [if_neg h]
  | element e =>
    cases e with
    | wall => rfl
    | corridor d t => rfl
    | room d ins acts =>
      simp only [availableActions, MapElement.actions] at h
      show Interact ⟨hp, .element (.room d ins acts), inv⟩ a acts = _
      simp only [Interact]
      rw [if_neg h]
    | item d acts =>
      simp only [availableActions, MapElement.actions] at h
      show Interact ⟨hp, .element (.item d acts), inv⟩ a acts = _
      simp only [Interact]
      rw [if_neg h]

set_option maxRecDepth 8000 in
/-- C8 witness: the interaction key "Open the drawer" is not a direction, so
issuing it from the initial level-0 state is rejected. -/
theorem illegal_action_error_witness :
    ("Open the drawer" ∉ availableActions NewGame.2) ∧
    Act NewGame "Open the drawer" = .error .illegalAction :=
  ⟨by decide, illegal_action_error NewGame "Open the drawer" (by decide)⟩

set_option maxRecDepth 8000 in
/-- C9: the new game starts with a narration beginning "Welcome Adventurer"
and the player at health 2, empty inventory, positioned at level 0. -/
theorem newGame_initial_state :
    NewGame.1 =
      "Welcome Adventurer" ++
        ". You locked yourself in this dungeon and you can't go back. On your left you notice a half opened door. In front of you there's a dark and humid corridor..  Use the type Act<TGameState, TAction>." ∧
    NewGame.2 = ⟨2, .level 0, []⟩ :=
  ⟨rfl, rfl⟩

set_option maxRecDepth 8000 in
/-- C1 counterexample: with health already 0 at level 0, the legal navigation
action "left" is answered by the room-entry narration and a live (non-null)
player state: `Act` does not run the death post-processing on the navigation
path, so the claim's "applied after every action (navigation as well as
interaction)" fails on this input. -/
theorem navigation_bypasses_death_check :
    Act ("", ⟨0, .level 0, []⟩) "left" =
      .ok ("Opening the door you find youserlf in a room with a small desk. The desk has one drawer. Your available actions are: Open the drawer, Exit the room",
           .alive ⟨0, .element ((levelAt 0).left), []⟩) ∧
    FinalState.alive ⟨0, .element ((levelAt 0).left), []⟩ ≠ .null :=
  ⟨rfl, by decide⟩

/-- C1 (amended): after an interaction (position inside a room or item) whose
registry effect yields a player state with health exactly 0, `Act` returns
the delegate narration with " You are Dead - Game Over!" appended and the
null player state; the check runs on the interaction path only, while
navigation results are returned without it (navigation never changes
health). -/
theorem interaction_death_check (n0 : String) (hp : Int) (inv : List String)
    (e : MapElement) (a key n : String) (req : Option String) (p : PlayerState)
    (hleg : a ∈ ListActions e.actions inv)
    (hlook : e.actions.lookup a = some (req, key))
    (heff : Actions ⟨hp, .element e, inv⟩ key = some (n, .upd p))
    (h0 : p.health = 0) :
    Act (n0, ⟨hp, .element e, inv⟩) a =
      .ok (n ++ " You are Dead - Game Over!", .null) := by
  rw [interact_result n0 hp inv e a key n req (.upd p) hleg hlook heff]
  simp [CheckActionResult, h0]

set_option maxRecDepth 8000 in
/-- C1 witness: in the spider room with health 1, running for the locked door
drops health to 0 and `Act` returns the death narration and null state. -/
theorem interaction_death_check_witness :
    ("Reach for the other door" ∈ ListActions ((levelAt 1).forward).actions []) ∧
    Actions ⟨1, .element ((levelAt 1).forward), []⟩ "spidersRoomSouthDoor.runForDoor" =
      some ("You make a run for the other door, only to find it locked. You get back from where you came and, as you leave the room, you are bitten and loose one hit point.",
            .upd ⟨0, .level 1, []⟩) ∧
    Act ("", ⟨1, .element ((levelAt 1).forward), []⟩) "Reach for the other door" =
      .ok ("You make a run for the other door, only to find it locked. You get back from where you came and, as you leave the room, you are bitten and loose one hit point. You are Dead - Game Over!",
           .null) :=
  ⟨by decide, rfl,
   interaction_death_check "" 1 [] ((levelAt 1).forward) "Reach for the other door"
     "spidersRoomSouthDoor.runForDoor"
     "You make a run for the other door, only to find it locked. You get back from where you came and, as you leave the room, you are bitten and loose one hit point."
     none ⟨0, .level 1, []⟩ (by decide) rfl rfl rfl⟩

set_option maxRecDepth 8000 in
/-- C3 counterexample: level 3 has walls forward and right, yet
`DescribeMapLevel` keeps their empty contributions in the join, producing two
trailing spaces — not the claimed join of only the non-empty contributions. -/
theorem describeMapLevel_joins_empty_slots :
    DescribeMapLevel (levelAt 3) =
      "On your left you notice that keep following the tunel seems to be your only option." ++ "  " ∧
    DescribeMapLevel (levelAt 3) ≠
      "On your left you notice that keep following the tunel seems to be your only option." :=
  ⟨rfl, by decide⟩

/-- C3 (amended): each non-wall slot contributes
"<direction phrase> <description>." with the three fixed phrases in
left, forward, right order, a wall contributes the empty string, and
`DescribeMapLevel` joins ALL three contributions (empty ones included) with a
single space — so wall slots yield leading, trailing or doubled spaces. -/
theorem describeMapLevel_format :
    (∀ lv : MapLevel,
        DescribeMapLevel lv =
          describeSlot "On your left you notice" lv.left ++ " " ++
          describeSlot "In front of you there's" lv.forward ++ " " ++
          describeSlot "On your right you see" lv.right) ∧
    (∀ d, describeSlot d .wall = "") ∧
    (∀ d s t, describeSlot d (.corridor s t) = d ++ " " ++ s ++ ".") ∧
    (∀ d s ins acts, describeSlot d (.room s ins acts) = d ++ " " ++ s ++ ".") ∧
    (∀ d s acts, describeSlot d (.item s acts) = d ++ " " ++ s ++ ".") := by
  refine ⟨?_, fun d => rfl, fun d s t => rfl, fun d s ins acts => rfl, fun d s acts => rfl⟩
  intro lv
  simp [DescribeMapLevel, Join, Directions, String.append_assoc]

set_option maxRecDepth 8000 in
/-- C4 counterexample: entering the key room narrates the inside description
followed by ". Your available actions are: " — with a period the claim's
format `insideText + " Your available actions are: "` does not have — so the
two formats disagree on this input. -/
theorem enter_narration_differs_from_claim :
    Act NewGame "left" =
      .ok ("Opening the door you find youserlf in a room with a small desk. The desk has one drawer" ++
             ". Your available actions are: " ++ "Open the drawer, Exit the room",
           .alive ⟨2, .element ((levelAt 0).left), []⟩) ∧
    ("Opening the door you find youserlf in a room with a small desk. The desk has one drawer" ++
       ". Your available actions are: " ++ "Open the drawer, Exit the room") ≠
      ("Opening the door you find youserlf in a room with a small desk. The desk has one drawer" ++
       " Your available actions are: " ++ "Open the drawer, Exit the room") :=
  ⟨rfl, by decide⟩

/-- C4 (amended): moving into a room makes it the new position and narrates
`insideDescription ++ ". Your available actions are: " ++ <gated list>`;
moving into an item makes it the new position and narrates
`"You reach for the " ++ description ++ ". Your available actions are: " ++
<gated list>` — the period and, for items, the "You reach for the " prefix
are part of the format. -/
theorem enter_room_or_item_narration (n0 : String) (hp : Int) (inv : List String)
    (i dir : Nat) (a : String) (e : MapElement) (req : Option String)
    (hlook : levelActions.lookup a = some (req, dir))
    (hslot : slotAt (levelAt i) dir = some e) :
    (∀ d ins acts, e = MapElement.room d ins acts →
        Act (n0, ⟨hp, .level i, inv⟩) a =
          .ok (ins ++ ". Your available actions are: " ++ Join (ListActions acts inv) ", ",
               .alive ⟨hp, .element e, inv⟩)) ∧
    (∀ d acts, e = MapElement.item d acts →
        Act (n0, ⟨hp, .level i, inv⟩) a =
          .ok ("You reach for the " ++ d ++ ". Your available actions are: " ++ Join (ListActions acts inv) ", ",
               .alive ⟨hp, .element e, inv⟩)) := by
  constructor
  · rintro d ins acts rfl
    rcases lookup_levelActions_cases a req dir hlook with ⟨ha, -⟩ | ⟨ha, -⟩ | ⟨ha, -⟩ <;>
      subst ha <;>
      rw [act_level_reduce _ _ _ _ _ (by rw [listActions_levelActions]; simp),
          move_lookup _ _ _ _ _ hlook, hslot]
  · rintro d acts rfl
    rcases lookup_levelActions_cases a req dir hlook with ⟨ha, -⟩ | ⟨ha, -⟩ | ⟨ha, -⟩ <;>
      subst ha <;>
      rw [act_level_reduce _ _ _ _ _ (by rw [listActions_levelActions]; simp),
          move_lookup _ _ _ _ _ hlook, hslot]

set_option maxRecDepth 8000 in
/-- C4 witness: moving "right" on level 2 reaches the locked chest; the
narration carries the "You reach for the ... ." format and the chest's
gated action list (the key action is hidden from an empty inventory). -/
theorem enter_room_or_item_narration_witness :
    levelActions.lookup "right" = some (none, 2) ∧
    slotAt (levelAt 2) 2 =
      some (.item "Locked Chest"
        [("Use the Small key", (some "Small Key", "chest.unlock")),
         ("Force it open", (none, "chest.force")),
         ("Leave it", (none, "chest.leave"))]) ∧
    Act ("", ⟨2, .level 2, []⟩) "right" =
      .ok ("You reach for the Locked Chest. Your available actions are: Force it open, Leave it",
           .alive ⟨2, .element (.item "Locked Chest"
             [("Use the Small key", (some "Small Key", "chest.unlock")),
              ("Force it open", (none, "chest.force")),
              ("Leave it", (none, "chest.leave"))]), []⟩) :=
  ⟨rfl, rfl,
   (enter_room_or_item_narration "" 2 [] 2 2 "right"
       (.item "Locked Chest"
         [("Use the Small key", (some "Small Key", "chest.unlock")),
          ("Force it open", (none, "chest.force")),
          ("Leave it", (none, "chest.leave"))]) none rfl rfl).2
     "Locked Chest"
     [("Use the Small key", (some "Small Key", "chest.unlock")),
      ("Force it open", (none, "chest.force")),
      ("Leave it", (none, "chest.leave"))] rfl⟩

set_option maxRecDepth 8000 in
/-- C5 counterexample: in the level-4 spider room with health 1, the exit
effect moves the player to level 1 (a map level), yet because health reaches
0 first, `Act` returns the death narration and null state instead of the
delegate narration plus level description with the new player state. -/
theorem interaction_death_overrides_level_text :
    Act ("", ⟨1, .element ((levelAt 4).forward), []⟩) "Exit through the other door" =
      .ok ("You make a run for the other door, and as you cross it you are bitten and loose one hit point. You are Dead - Game Over!",
           .null) ∧
    ("You make a run for the other door, and as you cross it you are bitten and loose one hit point. You are Dead - Game Over!" ≠
       "You make a run for the other door, and as you cross it you are bitten and loose one hit point." ++ " " ++ DescribeMapLevel (levelAt 1)) ∧
    (FinalState.null ≠ .alive ⟨0, .level 1, []⟩) :=
  ⟨rfl, by decide, by decide⟩

/-- C5 (amended): after an interaction whose registry effect yields a player
state with nonzero health positioned at a map level, `Act` appends a single
space and that level's description to the delegate narration and returns the
new player state; when the resulting health is 0 the death branch wins
instead. -/
theorem interaction_returns_to_level (n0 : String) (hp : Int) (inv : List String)
    (e : MapElement) (a key n : String) (req : Option String) (p : PlayerState) (j : Nat)
    (hleg : a ∈ ListActions e.actions inv)
    (hlook : e.actions.lookup a = some (req, key))
    (heff : Actions ⟨hp, .element e, inv⟩ key = some (n, .upd p))
    (hh : p.health ≠ 0)
    (hpos : p.position = .level j) :
    Act (n0, ⟨hp, .element e, inv⟩) a =
      .ok (n ++ " " ++ DescribeMapLevel (levelAt j), .alive p) := by
  rw [interact_result n0 hp inv e a key n req (.upd p) hleg hlook heff]
  simp [CheckActionResult, hh, hpos]

set_option maxRecDepth 8000 in
/-- C5 witness: opening the drawer in the key room yields the "Small Key" in
inventory, position back at level 0, and the level-0 description appended
after the pickup text. -/
theorem interaction_returns_to_level_witness :
    ("Open the drawer" ∈ ListActions ((levelAt 0).left).actions []) ∧
    Actions ⟨2, .element ((levelAt 0).left), []⟩ "keyRoom.key" =
      some ("You find a small key! You put in your pocket and leave the room, leaving the door open as you found.",
            .upd ⟨2, .level 0, ["Small Key"]⟩) ∧
    Act ("", ⟨2, .element ((levelAt 0).left), []⟩) "Open the drawer" =
      .ok ("You find a small key! You put in your pocket and leave the room, leaving the door open as you found." ++ " " ++ DescribeMapLevel (levelAt 0),
           .alive ⟨2, .level 0, ["Small Key"]⟩) :=
  ⟨by decide, rfl,
   interaction_returns_to_level "" 2 [] ((levelAt 0).left) "Open the drawer" "keyRoom.key"
     "You find a small key! You put in your pocket and leave the room, leaving the door open as you found."
     none ⟨2, .level 0, ["Small Key"]⟩ 0 (by decide) rfl rfl (by decide) rfl⟩

set_option maxRecDepth 8000 in
/-- C7 counterexample: putting on the mask while holding the "Spider Mask"
returns the win narration together with the terminal sentinel (the source's
`never`), not the input player state carried through: the player-state slot
differs from `alive` of the input state. -/
theorem put_mask_returns_terminal :
    Act ("", ⟨2, .element ((levelAt 1).forward), ["Spider Mask"]⟩) "Put on the mask" =
      .ok ("As soon as you put on the mask, the spiders gather around you, and as you move, they spread out making way for you. You focus your efforts in investigating the room and find a hidden passage that leads you... to the lost treasure of Anders Hejlsberg! You did it adventurer, now go check the code.",
           .terminal) ∧
    FinalState.terminal ≠ .alive ⟨2, .element ((levelAt 1).forward), ["Spider Mask"]⟩ :=
  ⟨rfl, by decide⟩

/-- C7 (amended): performing an action whose registry effect is the terminal
win sentinel makes `Act` return exactly the registry narration and the
terminal sentinel (the source's `never`), carrying no player state; the
registry's "spidersRoom.putMask" entry returns the same fixed win narration
for every player state. -/
theorem terminal_effect_result (n0 : String) (hp : Int) (inv : List String)
    (e : MapElement) (a key n : String) (req : Option String)
    (hleg : a ∈ ListActions e.actions inv)
    (hlook : e.actions.lookup a = some (req, key))
    (heff : Actions ⟨hp, .element e, inv⟩ key = some (n, .terminal)) :
    Act (n0, ⟨hp, .element e, inv⟩) a = .ok (n, .terminal) ∧
    (∀ q : PlayerState, Actions q "spidersRoom.putMask" =
        some ("As soon as you put on the mask, the spiders gather around you, and as you move, they spread out making way for you. You focus your efforts in investigating the room and find a hidden passage that leads you... to the lost treasure of Anders Hejlsberg! You did it adventurer, now go check the code.",
              .terminal)) := by
  refine ⟨?_, fun q => rfl⟩
  rw [interact_result n0 hp inv e a key n req .terminal hleg hlook heff]
  rfl

set_option maxRecDepth 8000 in
/-- C7 witness: the mask action in the level-1 spider room with the mask in
inventory triggers the terminal effect. -/
theorem terminal_effect_result_witness :
    ("Put on the mask" ∈ ListActions ((levelAt 1).forward).actions ["Spider Mask"]) ∧
    Act ("", ⟨2, .element ((levelAt 1).forward), ["Spider Mask"]⟩) "Put on the mask" =
      .ok ("As soon as you put on the mask, the spiders gather around you, and as you move, they spread out making way for you. You focus your efforts in investigating the room and find a hidden passage that leads you... to the lost treasure of Anders Hejlsberg! You did it adventurer, now go check the code.",
           .terminal) :=
  ⟨by decide,
   (terminal_effect_result "" 2 ["Spider Mask"] ((levelAt 1).forward) "Put on the mask"
      "spidersRoom.putMask"
      "As soon as you put on the mask, the spiders gather around you, and as you move, they spread out making way for you. You focus your efforts in investigating the room and find a hidden passage that leads you... to the lost treasure of Anders Hejlsberg! You did it adventurer, now go check the code."
      (some "Spider Mask") (by decide) rfl rfl).1⟩

set_option maxRecDepth 8000 in
/-- C10 counterexample: forcing the chest at health 1 runs a non-terminal
effect targeting level 2, yet the narration carries the death text, not the
level description, and the state is null — the claim's "level description is
always appended" fails once health reaches 0. -/
theorem nonterminal_death_no_level_text :
    Actions ⟨1, .element ((levelAt 2).right), []⟩ "chest.force" =
      some ("As you rattle the chest's lock, a spider comes out of nowhere and bites you. ",
            .upd ⟨0, .level 2, []⟩) ∧
    Act ("", ⟨1, .element ((levelAt 2).right), []⟩) "Force it open" =
      .ok ("As you rattle the chest's lock, a spider comes out of nowhere and bites you. " ++ " You are Dead - Game Over!",
           .null) ∧
    ("As you rattle the chest's lock, a spider comes out of nowhere and bites you. " ++ " You are Dead - Game Over!") ≠
      ("As you rattle the chest's lock, a spider comes out of nowhere and bites you. " ++ " " ++ DescribeMapLevel (levelAt 2)) ∧
    FinalState.null ≠ .alive ⟨0, .level 2, []⟩ :=
  ⟨rfl, rfl, by decide, by decide⟩

/-- C10 (amended): every non-terminal entry of the effects registry moves the
player to level 0, 1 or 2 of the map; consequently a legal interaction with a
non-terminal effect whose resulting health is nonzero leaves the player at
level scope (never inside a room or item) with that level's description
appended to the narration; when health reaches 0 the death branch replaces
this. -/
theorem nonterminal_effects_target_levels :
    (∀ (p : PlayerState) (key n : String) (q : PlayerState),
        Actions p key = some (n, .upd q) →
          q.position = .level 0 ∨ q.position = .level 1 ∨ q.position = .level 2) ∧
    (∀ (n0 : String) (hp : Int) (inv : List String) (e : MapElement)
        (a key n : String) (req : Option String) (q : PlayerState),
        a ∈ ListActions e.actions inv →
        e.actions.lookup a = some (req, key) →
        Actions ⟨hp, .element e, inv⟩ key = some (n, .upd q) →
        q.health ≠ 0 →
        ∃ j, (j = 0 ∨ j = 1 ∨ j = 2) ∧ q.position = .level j ∧
          Act (n0, ⟨hp, .element e, inv⟩) a =
            .ok (n ++ " " ++ DescribeMapLevel (levelAt j), .alive q)) := by
  constructor
  · exact actions_upd_level
  · intro n0 hp inv e a key n req q hleg hlook heff hh
    rcases actions_upd_level _ _ _ _ heff with hq | hq | hq
    · refine ⟨0, Or.inl rfl, hq, ?_⟩
      rw [interact_result n0 hp inv e a key n req (.upd q) hleg hlook heff]
      simp [CheckActionResult, hh, hq]
    · refine ⟨1, Or.inr (Or.inl rfl), hq, ?_⟩
      rw [interact_result n0 hp inv e a key n req (.upd q) hleg hlook heff]
      simp [CheckActionResult, hh, hq]
    · refine ⟨2, Or.inr (Or.inr rfl), hq, ?_⟩
      rw [interact_result n0 hp inv e a key n req (.upd q) hleg hlook heff]
      simp [CheckActionResult, hh, hq]

set_option maxRecDepth 8000 in
/-- C10 witness: forcing the chest at full health loses a hit point, returns
the player to level 2, and appends the level-2 description. -/
theorem nonterminal_effects_target_levels_witness :
    ("Force it open" ∈ ListActions ((levelAt 2).right).actions []) ∧
    (∃ j, (j = 0 ∨ j = 1 ∨ j = 2) ∧ (⟨1, .level 2, []⟩ : PlayerState).position = .level j ∧
      Act ("", ⟨2, .element ((levelAt 2).right), []⟩) "Force it open" =
        .ok ("As you rattle the chest's lock, a spider comes out of nowhere and bites you. " ++ " " ++ DescribeMapLevel (levelAt j),
             .alive ⟨1, .level 2, []⟩)) :=
  ⟨by decide,
   nonterminal_effects_target_levels.2 "" 2 [] ((levelAt 2).right) "Force it open" "chest.force"
     "As you rattle the chest's lock, a spider comes out of nowhere and bites you. "
     none ⟨1, .level 2, []⟩ (by decide) rfl rfl (by decide)⟩

end TDungeon
